import Mathlib

/-!
Verification of the task/module orchestration core of the anaconda
installer backend: the manual partitioning module
(pyanaconda/modules/storage/partitioning/manual.py), the storage
orchestrator (pyanaconda/modules/storage/storage.py) and the network
initialization tasks (pyanaconda/modules/network/initialization.py),
shallowly embedded in Lean.

External collaborators (blivet devices, the NetworkManager client,
ifcfg helpers, the kickstart parser) are modelled as data supplied in
an environment; Python object identity is modelled by explicit
identifiers; the mutable module state is threaded explicitly, with a
log of emitted signals and of backend calls.
-/

namespace Anaconda

namespace Manual

/-- The relevant part of a blivet format object: `device.format.type`
(None for no format), `device.format.mountable` and
`device.format.mountpoint` (None or empty when unset). -/
structure BFormat where
  type : Option String := none
  mountable : Bool := false
  mountpoint : Option String := none
  deriving DecidableEq, Repr

/-- The relevant part of a blivet device. `devId` models Python object
identity, `disks` the names of the disks the device lives on
(`{d.name for d in device.disks}`), `protected_` the `protected`
attribute and `size` the device size (0 for `Size(0)`). -/
structure BDevice where
  devId : Nat := 0
  name : String := ""
  path : String := ""
  protected_ : Bool := false
  size : Nat := 0
  disks : List String := []
  format : BFormat := {}
  deriving DecidableEq, Repr

/-- The device tree: its leaves in iteration order, and the
`resolve_device` resolver modelled as a finite map from device
specifiers to the identity of the resolved device object. -/
structure DeviceTree where
  leaves : List BDevice := []
  resolveMap : List (String × Nat) := []
  deriving DecidableEq, Repr

/-- `devicetree.resolve_device(spec)`: the resolved device object
(by identity), if any. -/
def DeviceTree.resolve_device (t : DeviceTree) (spec : String) : Option Nat :=
  t.resolveMap.lookup spec

/-- The storage model, as seen by the manual partitioning module. -/
structure MStorage where
  devicetree : DeviceTree := {}
  deriving DecidableEq, Repr

/-- The MountPointRequest DBus structure; fields default to the
structure's defaults (empty strings, false). -/
structure MountPointRequest where
  mount_point : String := ""
  device_spec : String := ""
  reformat : Bool := false
  format_type : String := ""
  format_options : String := ""
  mount_options : String := ""
  deriving DecidableEq, Repr

/-- `_iterate_usable_devices`: leaves of the device tree that are not
protected, have non-zero size, and (when any disks are selected) whose
disks all belong to the selected disks. -/
def iterate_usable_devices (storage : MStorage) (selected_disks : List String) :
    List BDevice :=
  storage.devicetree.leaves.filter fun d =>
    !(d.protected_ || d.size == 0) &&
      (selected_disks.isEmpty || d.disks.all fun n => selected_disks.contains n)

/-- `_find_request_for_device`: the first request in the pool whose
device specifier resolves to the given device (`device is
resolve_device(spec)` is identity comparison, modelled by `devId`).
The Python pool is a set of request objects; we model one enumeration
of it (the declared order), which fixes a deterministic
representative of the unspecified set-iteration order. -/
def find_request_for_device (storage : MStorage) (device : BDevice)
    (requests : List MountPointRequest) : Option MountPointRequest :=
  requests.find? fun r =>
    storage.devicetree.resolve_device r.device_spec == some device.devId

/-- `_create_request_for_device`: a synthesized request for a device,
with `reformat = False`, the device path as specifier, the current
format type (or empty) and the current mount point when the format is
mountable and has one. -/
def create_request_for_device (device : BDevice) : MountPointRequest :=
  let base : MountPointRequest :=
    { device_spec := device.path
      format_type := device.format.type.getD ""
      reformat := false }
  match device.format.mountpoint with
  | some mp => if device.format.mountable && mp != "" then { base with mount_point := mp } else base
  | none => base

/-- The loop of `gather_requests`, with the local pool of available
requests threaded explicitly: for each device in order, use a matching
declared request (removing it from the pool) or synthesize one.
Returns the gathered requests and the remaining pool. -/
def gather_aux (storage : MStorage) :
    List BDevice → List MountPointRequest →
      List MountPointRequest × List MountPointRequest
  | [], avail => ([], avail)
  | d :: ds, avail =>
    match find_request_for_device storage d avail with
    | some r =>
      let rest := gather_aux storage ds (avail.erase r)
      (r :: rest.1, rest.2)
    | none =>
      let rest := gather_aux storage ds avail
      (create_request_for_device d :: rest.1, rest.2)

/-- `gather_requests`: one request per usable device, in device-tree
leaf iteration order. -/
def gather_requests (storage : MStorage) (selected_disks : List String)
    (declared : List MountPointRequest) : List MountPointRequest :=
  (gather_aux storage (iterate_usable_devices storage selected_disks) declared).1

theorem gather_aux_length (storage : MStorage) :
    ∀ (devs : List BDevice) (avail : List MountPointRequest),
      (gather_aux storage devs avail).1.length = devs.length := by
  intro devs
  induction devs with
  | nil => intro avail; rfl
  | cons d ds ih =>
    intro avail
    cases h : find_request_for_device storage d avail with
    | some r => simp [gather_aux, h, ih]
    | none => simp [gather_aux, h, ih]

theorem gather_aux_get (storage : MStorage) :
    ∀ (devs : List BDevice) (avail : List MountPointRequest) (i : Nat)
      (d : BDevice) (r : MountPointRequest),
      devs[i]? = some d → ((gather_aux storage devs avail).1)[i]? = some r →
        (r ∈ avail ∧
          storage.devicetree.resolve_device r.device_spec = some d.devId) ∨
          r = create_request_for_device d := by
  intro devs
  induction devs with
  | nil => intro avail i d r hd; simp at hd
  | cons d0 ds ih =>
    intro avail i d r hd hr
    cases h : find_request_for_device storage d0 avail with
    | some r0 =>
      simp only [gather_aux, h] at hr
      cases i with
      | zero =>
        simp at hd hr
        subst hd; subst hr
        left
        constructor
        · exact List.mem_of_find?_eq_some h
        · have := List.find?_some h
          simpa using this
      | succ n =>
        simp at hd hr
        rcases ih (avail.erase r0) n d r hd hr with ⟨hmem, hres⟩ | hcr
        · exact Or.inl ⟨List.mem_of_mem_erase hmem, hres⟩
        · exact Or.inr hcr
    | none =>
      simp only [gather_aux, h] at hr
      cases i with
      | zero =>
        simp at hd hr
        subst hd; subst hr
        exact Or.inr rfl
      | succ n =>
        simp at hd hr
        exact ih avail n d r hd hr

theorem gather_aux_count (storage : MStorage) :
    ∀ (devs : List BDevice) (avail : List MountPointRequest)
      (r : MountPointRequest),
      (gather_aux storage devs avail).1.count r ≤
        avail.count r +
          devs.countP (fun d => create_request_for_device d == r) := by
  intro devs
  induction devs with
  | nil => intro avail r; simp [gather_aux]
  | cons d0 ds ih =>
    intro avail r
    cases h : find_request_for_device storage d0 avail with
    | some r0 =>
      have hmem : r0 ∈ avail := List.mem_of_find?_eq_some h
      simp only [gather_aux, h]
      by_cases hr : r0 = r
      · subst hr
        have hone : 1 ≤ avail.count r0 := List.one_le_count_iff.2 hmem
        have herase : (avail.erase r0).count r0 = avail.count r0 - 1 :=
          List.count_erase_self r0 avail
        have := ih (avail.erase r0) r0
        rw [herase] at this
        have hcp : ds.countP (fun d => create_request_for_device d == r0) ≤
            (d0 :: ds).countP (fun d => create_request_for_device d == r0) := by
          rw [List.countP_cons]; omega
        simp only [List.count_cons_self]
        omega
      · have herase : (avail.erase r0).count r = avail.count r := by
          rw [List.count_erase_of_ne (fun hc => hr hc.symm)]
        have := ih (avail.erase r0) r
        rw [herase] at this
        have hcp : ds.countP (fun d => create_request_for_device d == r) ≤
            (d0 :: ds).countP (fun d => create_request_for_device d == r) := by
          rw [List.countP_cons]; omega
        rw [List.count_cons_of_ne (fun hc => hr hc.symm)]
        omega
    | none =>
      simp only [gather_aux, h]
      by_cases hc : create_request_for_device d0 = r
      · rw [hc, List.count_cons_self, List.countP_cons]
        have := ih avail r
        simp [hc]
        omega
      · rw [List.count_cons_of_ne (fun he => hc he.symm), List.countP_cons]
        have := ih avail r
        simp [hc]
        omega

/-- Concrete storage model used to instantiate the theorems below:
two leaf devices on disk sda, the second carrying a mountable ext4
format, with the resolver mapping names and paths to the devices. -/
def c1_storage : MStorage :=
  { devicetree :=
    { leaves :=
        [ { devId := 1, name := "sda1", path := "/dev/sda1", size := 10, disks := ["sda"] }
        , { devId := 2, name := "sda2", path := "/dev/sda2", size := 20, disks := ["sda"]
            format := { type := some "ext4", mountable := true, mountpoint := some "/home" } } ]
      resolveMap := [("sda1", 1), ("sda2", 2), ("/dev/sda1", 1), ("/dev/sda2", 2)] } }

def c1_declared : List MountPointRequest :=
  [{ mount_point := "/", device_spec := "sda1" }]

/-- C1: `gather_requests()` returns exactly one request per usable
device, in device-tree leaf iteration order; each returned request is
either a declared request resolving to that device or a synthesized
request for the device; no two returned requests resolving to their
(distinct) devices are equal; and every declared request is consumed
at most once: each request value occurs in the output at most as often
as it occurs in the declared list plus the number of devices that
synthesize exactly it. -/
theorem gather_requests_correct (storage : MStorage) (selected_disks : List String)
    (declared : List MountPointRequest)
    (hnodup : ((iterate_usable_devices storage selected_disks).map BDevice.devId).Nodup) :
    (gather_requests storage selected_disks declared).length =
      (iterate_usable_devices storage selected_disks).length ∧
    (∀ (i : Nat) (d : BDevice) (r : MountPointRequest),
      (iterate_usable_devices storage selected_disks)[i]? = some d →
      (gather_requests storage selected_disks declared)[i]? = some r →
      (r ∈ declared ∧
        storage.devicetree.resolve_device r.device_spec = some d.devId) ∨
        r = create_request_for_device d) ∧
    (∀ (i j : Nat) (di dj : BDevice) (ri rj : MountPointRequest), i ≠ j →
      (iterate_usable_devices storage selected_disks)[i]? = some di →
      (iterate_usable_devices storage selected_disks)[j]? = some dj →
      (gather_requests storage selected_disks declared)[i]? = some ri →
      (gather_requests storage selected_disks declared)[j]? = some rj →
      storage.devicetree.resolve_device ri.device_spec = some di.devId →
      storage.devicetree.resolve_device rj.device_spec = some dj.devId →
      ri ≠ rj) ∧
    (∀ r, (gather_requests storage selected_disks declared).count r ≤
      declared.count r +
        (iterate_usable_devices storage selected_disks).countP
          (fun d => create_request_for_device d == r)) := by
  refine ⟨gather_aux_length storage _ declared, ?_, ?_, ?_⟩
  · intro i d r hd hr
    exact gather_aux_get storage _ declared i d r hd hr
  · intro i j di dj ri rj hij hdi hdj hri hrj hresi hresj heq
    apply hij
    subst heq
    rw [hresi] at hresj
    have hdev : di.devId = dj.devId := Option.some.inj hresj
    rcases List.getElem?_eq_some_iff.1 hdi with ⟨hilen, hgi⟩
    rcases List.getElem?_eq_some_iff.1 hdj with ⟨hjlen, hgj⟩
    have hge : ((iterate_usable_devices storage selected_disks).map BDevice.devId).get
        ⟨i, by simpa using hilen⟩ =
        ((iterate_usable_devices storage selected_disks).map BDevice.devId).get
        ⟨j, by simpa using hjlen⟩ := by
      simp [List.get_eq_getElem, hgi, hgj, hdev]
    have hfin := (List.Nodup.get_inj_iff hnodup).1 hge
    exact congrArg Fin.val hfin
  · intro r
    exact gather_aux_count storage _ declared r

theorem gather_requests_correct_wit :
    (gather_requests c1_storage [] c1_declared).length =
      (iterate_usable_devices c1_storage []).length :=
  (gather_requests_correct c1_storage [] c1_declared (by decide)).1

/-- One `mount` kickstart record (pykickstart MountData); fields
default to the fresh record's defaults. -/
structure MountData where
  mount_point : String := ""
  device : String := ""
  reformat : Bool := false
  format : String := ""
  mkfs_opts : String := ""
  mount_opts : String := ""
  deriving DecidableEq, Repr

/-- The `mount` section of a kickstart handler: whether the command
was seen during parsing, and its mount point records. -/
structure MountSection where
  seen : Bool := false
  mount_points : List MountData := []
  deriving DecidableEq, Repr

/-- The kickstart handler, restricted to the data the manual
partitioning module touches. A fresh handler is `{}`. -/
structure KSData where
  mount : MountSection := {}
  deriving DecidableEq, Repr

/-- Mutable state of the ManualPartitioningModule: the enabled flag
and the declared mount point requests. -/
structure MState where
  enabled : Bool := false
  requests : List MountPointRequest := []
  deriving DecidableEq, Repr

/-- The signals the module can emit. -/
inductive MEmit where
  | enabledChanged
  | requestsChanged
  deriving DecidableEq, Repr

/-- `set_enabled`: store the flag and emit `enabled_changed`. -/
def set_enabled (s : MState) (b : Bool) : MState × List MEmit :=
  ({ s with enabled := b }, [MEmit.enabledChanged])

/-- `set_requests`: store the list and emit `requests_changed`. -/
def set_requests (s : MState) (rs : List MountPointRequest) : MState × List MEmit :=
  ({ s with requests := rs }, [MEmit.requestsChanged])

/-- The per-record translation done by `process_kickstart`. -/
def md_to_request (m : MountData) : MountPointRequest :=
  { mount_point := m.mount_point
    device_spec := m.device
    reformat := m.reformat
    format_type := m.format
    format_options := m.mkfs_opts
    mount_options := m.mount_opts }

/-- The per-record translation done by `setup_kickstart`. -/
def request_to_md (r : MountPointRequest) : MountData :=
  { mount_point := r.mount_point
    device := r.device_spec
    reformat := r.reformat
    format := r.format_type
    mkfs_opts := r.format_options
    mount_opts := r.mount_options }

/-- `process_kickstart`: when the mount command was not seen, clear
the requests and disable; otherwise store the translated records and
enable. Returns the new state and the emitted signals. -/
def process_kickstart (s : MState) (d : KSData) : MState × List MEmit :=
  if !d.mount.seen then
    let p1 := set_requests s []
    let p2 := set_enabled p1.1 false
    (p2.1, p1.2 ++ p2.2)
  else
    let reqs := d.mount.mount_points.map md_to_request
    let p1 := set_requests s reqs
    let p2 := set_enabled p1.1 true
    (p2.1, p1.2 ++ p2.2)

/-- `setup_kickstart`: when disabled, leave the handler untouched;
otherwise write the translated requests into the mount section
(the `seen` flag is not written). -/
def setup_kickstart (s : MState) (d : KSData) : KSData :=
  if !s.enabled then d
  else { d with mount := { d.mount with mount_points := s.requests.map request_to_md } }

/-- Modelled from the spec: regeneration of kickstart data. The
generated handler is serialized (`generate_kickstart` returns
`str(data)`, one mount line per record) and parsed again by the
excluded kickstart parser, which marks the mount command as seen
exactly when at least one mount line is present in the text. -/
def reparse (d : KSData) : KSData :=
  { d with mount := { d.mount with seen := !d.mount.mount_points.isEmpty } }

/-- The round trip of C5: process the data, set up a fresh handler,
regenerate, and process again. Returns the state after the first
processing and the state after reprocessing the regenerated data. -/
def regenerate_state (s0 : MState) (d : KSData) : MState × MState :=
  let s1 := (process_kickstart s0 d).1
  let d1 := setup_kickstart s1 {}
  (s1, (process_kickstart s1 (reparse d1)).1)

/-- C5 counterexample: for kickstart data whose mount section is
marked seen but lists no mount points, the first processing enables
the module, while the regenerated data (which serializes to no mount
line) disables it again: the round trip does not preserve the
enabled flag. -/
theorem kickstart_roundtrip_cex :
    ((regenerate_state {} { mount := { seen := true, mount_points := [] } }).1.enabled = true) ∧
    ((regenerate_state {} { mount := { seen := true, mount_points := [] } }).2.enabled = false) := by
  decide

/-- C5 amended: for kickstart data whose mount section, when seen,
lists at least one mount point, processing the regenerated data
restores exactly the same enabled flag and the same request list as
the first processing. -/
theorem kickstart_roundtrip (s0 : MState) (d : KSData)
    (h : d.mount.seen = true → d.mount.mount_points ≠ []) :
    (regenerate_state s0 d).2.enabled = (regenerate_state s0 d).1.enabled ∧
    (regenerate_state s0 d).2.requests = (regenerate_state s0 d).1.requests := by
  have hid : ∀ r : MountPointRequest, md_to_request (request_to_md r) = r := by
    intro r; cases r; rfl
  cases hseen : d.mount.seen with
  | false =>
    simp [regenerate_state, process_kickstart, setup_kickstart, reparse,
      set_requests, set_enabled, hseen]
  | true =>
    have hne : d.mount.mount_points ≠ [] := h hseen
    cases hmp : d.mount.mount_points with
    | nil => exact absurd hmp hne
    | cons m ms =>
      simp [regenerate_state, process_kickstart, setup_kickstart, reparse,
        set_requests, set_enabled, hseen, hmp, List.map_map, Function.comp_def, hid]

theorem kickstart_roundtrip_wit :
    (regenerate_state {} { mount := { seen := true, mount_points := [{ mount_point := "/", device := "sda1" }] } }).2.enabled =
      (regenerate_state {} { mount := { seen := true, mount_points := [{ mount_point := "/", device := "sda1" }] } }).1.enabled ∧
    (regenerate_state {} { mount := { seen := true, mount_points := [{ mount_point := "/", device := "sda1" }] } }).2.requests =
      (regenerate_state {} { mount := { seen := true, mount_points := [{ mount_point := "/", device := "sda1" }] } }).1.requests :=
  kickstart_roundtrip {} _ (by simp)

/-- `gather_requests` as a module operation: it reads the declared
requests into a local pool and builds the result; the module state is
read but not written, and no signal is emitted (the source contains
no assignment to `self` and no `emit` call). -/
def gather_requests_m (s : MState) (storage : MStorage) (selected_disks : List String) :
    List MountPointRequest × MState × List MEmit :=
  let avail := s.requests
  ((gather_aux storage (iterate_usable_devices storage selected_disks) avail).1, s, [])

/-- C9: `gather_requests()` is observationally pure on the module
state: the requests list and enabled flag after the call are the
values before it, no signal is emitted, and the result is the pure
gather over the stored requests. -/
theorem gather_requests_pure (s : MState) (storage : MStorage) (selected_disks : List String) :
    (gather_requests_m s storage selected_disks).2.1 = s ∧
    (gather_requests_m s storage selected_disks).2.2 = ([] : List MEmit) ∧
    (gather_requests_m s storage selected_disks).1 =
      gather_requests storage selected_disks s.requests :=
  ⟨rfl, rfl, rfl⟩

end Manual

namespace Storage

/-- The storage model (blivet instance) as seen by the orchestrator:
the disk-selection constraint fields it assigns, an abstract tag for
the device-tree contents, and the verdict of structural validation
(modelled from the spec: the excluded `StorageValidateTask` raises
`InvalidStorageError` exactly when the model fails validation). -/
structure Blivet where
  ignored_disks : List String := []
  exclusive_disks : List String := []
  protected_devices : List String := []
  disk_images : List (String × String) := []
  tree : Nat := 0
  valid : Bool := true
  deriving DecidableEq, Repr

/-- `storage.copy()`: a deep copy; under the value semantics of the
embedding a deep copy is the same value. -/
def Blivet.copy (s : Blivet) : Blivet := s

/-- Modelled from the spec: `create_storage()` (excluded
initialization helper) builds a fresh default storage model. -/
def create_storage : Blivet := {}

/-- The disk-selection sub-module state read by `reset_with_task`. -/
structure DiskSelectionState where
  ignored_disks : List String := []
  exclusive_disks : List String := []
  protected_devices : List String := []
  disk_images : List (String × String) := []
  deriving DecidableEq, Repr

/-- Mutable state of the StorageModule: the canonical model slot
(`self._storage`, None before first use), the disk-selection
constraints, and the log of `storage_changed` emissions (payloads, in
emission order; delivery to the connected sub-modules is synchronous
in this order). -/
structure SState where
  storage_slot : Option Blivet := none
  disk_selection : DiskSelectionState := {}
  emitted : List Blivet := []
  deriving DecidableEq, Repr

/-- `set_storage`: store the model and emit `storage_changed`. -/
def set_storage (st : SState) (s : Blivet) : SState :=
  { st with storage_slot := some s, emitted := st.emitted ++ [s] }

/-- The `storage` property: return the canonical model, lazily
creating and announcing it through `set_storage` when the slot is
still empty. -/
def storage_get (st : SState) : Blivet × SState :=
  match st.storage_slot with
  | some s => (s, st)
  | none => (create_storage, set_storage st create_storage)

/-- The scratch model built by `reset_with_task`: a copy of the given
model with the current disk-selection constraints re-applied. -/
def reset_config (m : Blivet) (dsel : DiskSelectionState) : Blivet :=
  { m.copy with
    ignored_disks := dsel.ignored_disks
    exclusive_disks := dsel.exclusive_disks
    protected_devices := dsel.protected_devices
    disk_images := dsel.disk_images }

/-- `reset_with_task`: read the canonical model (line 217 goes through
the `storage` property), copy it, apply the constraints, and return
the scratch model over which the task is built, with the state after
the call. -/
def reset_with_task (st : SState) : Blivet × SState :=
  let p := storage_get st
  (reset_config p.1 st.disk_selection, p.2)

/-- Modelled from the spec: the Task abstraction's success signal
fires exactly when `run()` succeeds, and `reset_with_task` connects
`set_storage` of the scratch model to it. The outcome of the external
blivet reset is the `succeeds` parameter; this runs the returned task
and its connected callback. -/
def reset_and_run (st : SState) (succeeds : Bool) : SState :=
  let p := reset_with_task st
  if succeeds then set_storage p.2 p.1 else p.2

/-- C3 counterexample: starting from a module whose canonical slot is
still empty, building the reset task already creates and announces a
canonical model (the `storage` property read at the top of
`reset_with_task`), so a reset whose task then fails leaves the slot
filled and one `storage_changed` emission behind - the notification
fired although the task did not succeed. -/
theorem reset_notify_cex :
    ((reset_and_run {} false).storage_slot).isSome = true ∧
    (reset_and_run {} false).emitted ≠ ([] : List Blivet) := by
  decide

/-- C3 amended: provided the canonical model already exists (a first
access otherwise creates and announces one), `reset_with_task` does
not modify the module state; a failed reset leaves the state
completely unchanged, and a successful one swaps the canonical slot
to the constrained copy and emits exactly one `storage_changed` with
it - swap and notification happen together or not at all. -/
theorem reset_with_task_atomic (st : SState) (m : Blivet)
    (h : st.storage_slot = some m) :
    (reset_with_task st).2 = st ∧
    reset_and_run st false = st ∧
    (reset_and_run st true).storage_slot = some (reset_config m st.disk_selection) ∧
    (reset_and_run st true).emitted = st.emitted ++ [reset_config m st.disk_selection] := by
  refine ⟨?_, ?_, ?_, ?_⟩ <;>
    simp [reset_with_task, reset_and_run, storage_get, set_storage, h]

theorem reset_with_task_atomic_wit :
    (reset_with_task { storage_slot := some { tree := 7 } }).2 =
      { storage_slot := some { tree := 7 } } ∧
    reset_and_run { storage_slot := some { tree := 7 } } false =
      { storage_slot := some { tree := 7 } } ∧
    (reset_and_run { storage_slot := some { tree := 7 } } true).storage_slot =
      some (reset_config { tree := 7 } {}) ∧
    (reset_and_run { storage_slot := some { tree := 7 } } true).emitted =
      [] ++ [reset_config { tree := 7 } {}] :=
  reset_with_task_atomic { storage_slot := some { tree := 7 } } { tree := 7 } rfl

/-- The typed configuration error raised on failed validation. -/
structure InvalidStorageError where
  msg : String := "The storage configuration is not valid."
  deriving DecidableEq, Repr

/-- Modelled from the spec: `StorageValidateTask.run()` (excluded
validation module) performs the structural check of the model and
raises `InvalidStorageError` exactly when it fails. -/
def storage_validate_run (s : Blivet) : Except InvalidStorageError Unit :=
  if s.valid then Except.ok () else Except.error {}

/-- `apply_partitioning`: run the validation task synchronously over
the module's scratch model; a raised error propagates with the module
state untouched, otherwise the canonical slot is set to a copy of the
scratch model (emitting `storage_changed`). -/
def apply_partitioning (st : SState) (module_storage : Blivet) :
    SState × Except InvalidStorageError Unit :=
  match storage_validate_run module_storage with
  | Except.error e => (st, Except.error e)
  | Except.ok _ => (set_storage st module_storage.copy, Except.ok ())

/-- C4: `apply_partitioning` raises `InvalidStorageError` exactly when
validation of the scratch model fails, leaving the canonical slot and
the emission log unchanged; on success the canonical slot becomes a
copy of the scratch model and `storage_changed` is emitted with it. -/
theorem apply_partitioning_validates (st : SState) (scratch : Blivet) :
    (scratch.valid = false →
      apply_partitioning st scratch = (st, Except.error {})) ∧
    (scratch.valid = true →
      apply_partitioning st scratch = (set_storage st scratch.copy, Except.ok ())) := by
  constructor <;> intro h <;>
    simp [apply_partitioning, storage_validate_run, h]

theorem apply_partitioning_validates_wit :
    apply_partitioning {} { valid := false } = ({}, Except.error {}) ∧
    apply_partitioning {} { valid := true } =
      (set_storage {} (Blivet.copy { valid := true }), Except.ok ()) :=
  ⟨(apply_partitioning_validates {} { valid := false }).1 rfl,
    (apply_partitioning_validates {} { valid := true }).2 rfl⟩

/-- C10: reading the `storage` property with an empty slot creates the
model via `set_storage`, so the `storage_changed` emission happens
before the read returns and the new model is stored; with a filled
slot the stored model is returned and the state (slot and emission
log) is byte-for-byte unchanged. -/
theorem storage_lazy_get (st : SState) :
    (st.storage_slot = none →
      storage_get st =
        (create_storage,
          { st with storage_slot := some create_storage
                    emitted := st.emitted ++ [create_storage] })) ∧
    (∀ m : Blivet, st.storage_slot = some m → storage_get st = (m, st)) := by
  constructor
  · intro h; simp [storage_get, set_storage, h]
  · intro m h; simp [storage_get, h]

theorem storage_lazy_get_wit :
    storage_get {} =
      (create_storage,
        { ({} : SState) with storage_slot := some create_storage
                             emitted := [] ++ [create_storage] }) ∧
    storage_get { storage_slot := some { tree := 3 } } =
      ({ tree := 3 }, { storage_slot := some { tree := 3 } }) :=
  ⟨(storage_lazy_get {}).1 rfl,
    (storage_lazy_get { storage_slot := some { tree := 3 } }).2 { tree := 3 } rfl⟩

end Storage

namespace Network

/-- The relevant part of an NM connection: its uuid, the master of its
connection setting (NULL when the connection is not a slave) and its
bound interface name. -/
structure NMConnection where
  uuid : String := ""
  master : Option String := none
  interface_name : Option String := none
  deriving DecidableEq, Repr

/-- The relevant part of an NM device: interface name, device type,
its available connections and the connection of its active connection
(if any). -/
structure NMDevice where
  iface : String := ""
  device_type : Nat := 1
  available_connections : List NMConnection := []
  active_connection : Option NMConnection := none
  deriving DecidableEq, Repr

/-- The NetworkManager client, reduced to device enumeration. -/
structure NMClient where
  devices : List NMDevice := []
  deriving DecidableEq, Repr

/-- An ifcfg file known to the ifcfg helpers: its connection uuid and
whether it originated from kickstart. -/
structure IfcfgFile where
  uuid : String := ""
  is_from_kickstart : Bool := false
  deriving DecidableEq, Repr

/-- One kickstart network directive, reduced to the fields the
initialization tasks read. Empty string / empty list model the unset
(falsy) value. -/
structure NetworkData where
  device : String := ""
  essid : String := ""
  activate : Bool := false
  onboot : Bool := false
  vlanid : String := ""
  bondslaves : String := ""
  teamslaves : List String := []
  bridgeslaves : String := ""
  deriving DecidableEq, Repr

/-- Backend calls the tasks can issue, logged in call order. -/
inductive NetEffect where
  | ensureActive (uuid : String) (iface : String) (only_replace : Bool)
  | addConnection (iface : String) (activate : Bool)
  | updateConnection (uuid : String) (iface : String)
  | activateConnection (uuid : String) (iface : String)
  | commitChanges (uuid : String)
  | updateOnbootIfcfg (uuid : String) (onboot : Bool)
  | updateIfaceSettings (iface : String) (onboot : Bool)
  | updateSlavesOnboot (master : String) (onboot : Bool)
  deriving DecidableEq, Repr

/-- Modelled from the spec: the configuration flag and the excluded
helper modules (nm_client.py, ifcfg.py, device_configuration.py) the
tasks call into - device-name resolution from a directive, the ifcfg
file of a device, uuid lookup, the outcomes of the onboot update
primitives, and the supported wired device types. -/
structure NetEnv where
  can_configure_network : Bool := true
  ifcfg_files : List (String × IfcfgFile) := []
  resolve_device_name : NetworkData → String := fun _ => ""
  ensure_active_result : String → String → Bool := fun _ _ => true
  find_ifcfg_uuid : String → Option String := fun _ => none
  update_onboot_result : String → Bool → Bool := fun _ _ => true
  update_iface_settings_count : String → Bool → Nat := fun _ _ => 1
  update_slaves_result : String → Bool → Option String → List String := fun _ _ _ => []
  supported_wired_types : List Nat := [1]

/-- `get_ifcfg_file_of_device`. -/
def NetEnv.ifcfg_file (env : NetEnv) (iface : String) : Option IfcfgFile :=
  env.ifcfg_files.lookup iface

/-- A task loop over a list, accumulating the returned device names
and the issued backend calls in iteration order. -/
def run_loop (f : α → List String × List NetEffect) :
    List α → List String × List NetEffect
  | [] => ([], [])
  | a :: as => ((f a).1 ++ (run_loop f as).1, (f a).2 ++ (run_loop f as).2)

theorem run_loop_mem {f : α → List String × List NetEffect} {a : α} {l : List α}
    (ha : a ∈ l) {x : String} (hx : x ∈ (f a).1) : x ∈ (run_loop f l).1 := by
  induction l with
  | nil => cases ha
  | cons b bs ih =>
    rcases List.mem_cons.1 ha with h | h
    · subst h; exact List.mem_append_left _ hx
    · exact List.mem_append_right _ (ih h)

/-- The body of the `ApplyKickstartTask.run` loop for one directive:
skip wireless directives and unresolved devices; a kickstart-born
ifcfg only re-activates (counting the device when activation
succeeds); a pre-kickstart directive counts the device and updates the
initramfs connection (optionally activating) or adds a fresh one. -/
def apply_kickstart_item (env : NetEnv) (nd : NetworkData) :
    List String × List NetEffect :=
  if nd.essid != "" then ([], [])
  else
    let device_name := env.resolve_device_name nd
    if device_name == "" then ([], [])
    else
      match env.ifcfg_file device_name with
      | some f =>
        if f.is_from_kickstart then
          if nd.activate then
            ((if env.ensure_active_result f.uuid device_name then [device_name] else []),
              [NetEffect.ensureActive f.uuid device_name false])
          else ([], [])
        else
          ([device_name],
            NetEffect.updateConnection f.uuid device_name ::
              (if nd.activate then [NetEffect.activateConnection f.uuid device_name] else []))
      | none =>
        ([device_name], [NetEffect.addConnection device_name nd.activate])

/-- `ApplyKickstartTask.run`: guarded by the system configuration,
then empty without directives or without a NetworkManager client. -/
def apply_kickstart_run (env : NetEnv) (client : Option NMClient)
    (network_data : List NetworkData) : List String × List NetEffect :=
  if !env.can_configure_network then ([], [])
  else if network_data.isEmpty then ([], [])
  else
    match client with
    | none => ([], [])
    | some _ => run_loop (apply_kickstart_item env) network_data

/-- `_select_persistent_connection_for_iface`: the first available
connection bound to the interface name. -/
def select_persistent_connection_for_iface (iface : String)
    (cons : List NMConnection) : Option NMConnection :=
  cons.find? fun c => c.interface_name == some iface

/-- A raised Python AttributeError, propagating out of `run()`. -/
structure AttributeError where
  msg : String := "str object has no attribute get_uuid"
  deriving DecidableEq, Repr

instance {ε α : Type} [DecidableEq ε] [DecidableEq α] : DecidableEq (Except ε α)
  | Except.error a, Except.error b => decidable_of_iff (a = b) (by simp)
  | Except.error _, Except.ok _ => isFalse fun h => Except.noConfusion h
  | Except.ok _, Except.error _ => isFalse fun h => Except.noConfusion h
  | Except.ok a, Except.ok b => decidable_of_iff (a = b) (by simp)

/-- The body of the `ConsolidateInitramfsConnectionsTask.run` loop for
one device, returning the backend calls issued and either the names
contributed to the result or a raised error. Devices with fewer than
two available connections or with any slave connection are left
alone; a kickstart-born ifcfg file causes the device to be skipped;
an existing non-kickstart ifcfg file stores its uuid string in
`con_for_iface` (line 208), so the later `con_for_iface.get_uuid()`
(line 215) raises AttributeError - the uuid attribute is a plain
string, passed as the uuid argument at lines 117 and 127-130 - before
`ensure_active_connection_for_device` is called; without an ifcfg
file a connection bound to the interface name is selected and made
the only active one, the device being skipped when none matches. -/
def consolidate_device (env : NetEnv) (d : NMDevice) :
    List NetEffect × Except AttributeError (List String) :=
  let cons := d.available_connections
  let iface := d.iface
  if cons.length < 2 then ([], Except.ok [])
  else if cons.any (fun c => c.master.isSome) then ([], Except.ok [])
  else
    match env.ifcfg_file iface with
    | none =>
      match select_persistent_connection_for_iface iface cons with
      | none => ([], Except.ok [])
      | some c => ([NetEffect.ensureActive c.uuid iface true], Except.ok [iface])
    | some f =>
      if f.is_from_kickstart then ([], Except.ok [])
      else ([], Except.error {})

/-- A task loop whose body may raise: the first raised error aborts
the loop and propagates, keeping the backend calls already issued. -/
def run_loop_exc (f : α → List NetEffect × Except AttributeError (List String)) :
    List α → List NetEffect × Except AttributeError (List String)
  | [] => ([], Except.ok [])
  | a :: as =>
    match (f a).2 with
    | Except.error e => ((f a).1, Except.error e)
    | Except.ok ns =>
      match (run_loop_exc f as).2 with
      | Except.error e => ((f a).1 ++ (run_loop_exc f as).1, Except.error e)
      | Except.ok ns2 => ((f a).1 ++ (run_loop_exc f as).1, Except.ok (ns ++ ns2))

theorem run_loop_exc_mem {f : α → List NetEffect × Except AttributeError (List String)}
    {a : α} {l : List α} (ha : a ∈ l) {nsa : List String}
    (hfa : (f a).2 = Except.ok nsa) {x : String} (hx : x ∈ nsa) :
    ∀ ns : List String, (run_loop_exc f l).2 = Except.ok ns → x ∈ ns := by
  induction l with
  | nil => cases ha
  | cons b bs ih =>
    intro ns hns
    rcases List.mem_cons.1 ha with h | h
    · subst h
      simp only [run_loop_exc, hfa] at hns
      cases hb : (run_loop_exc f bs).2 with
      | error e => rw [hb] at hns; simp at hns
      | ok ns2 =>
        rw [hb] at hns
        simp only [Except.ok.injEq] at hns
        subst hns
        exact List.mem_append_left _ hx
    · cases hfb : (f b).2 with
      | error e => simp only [run_loop_exc, hfb] at hns; simp at hns
      | ok nsb =>
        simp only [run_loop_exc, hfb] at hns
        cases hb : (run_loop_exc f bs).2 with
        | error e => rw [hb] at hns; simp at hns
        | ok ns2 =>
          rw [hb] at hns
          simp only [Except.ok.injEq] at hns
          subst hns
          exact List.mem_append_right _ (ih h ns2 hb)

theorem run_loop_exc_error {f : α → List NetEffect × Except AttributeError (List String)}
    {a : α} {l : List α} (ha : a ∈ l) {e : AttributeError}
    (he : (f a).2 = Except.error e) :
    ∃ e2, (run_loop_exc f l).2 = Except.error e2 := by
  induction l with
  | nil => cases ha
  | cons b bs ih =>
    rcases List.mem_cons.1 ha with h | h
    · subst h
      exact ⟨e, by simp only [run_loop_exc, he]⟩
    · cases hfb : (f b).2 with
      | error eb => exact ⟨eb, by simp only [run_loop_exc, hfb]⟩
      | ok nsb =>
        obtain ⟨e2, h2⟩ := ih h
        exact ⟨e2, by simp only [run_loop_exc, hfb, h2]⟩

/-- `ConsolidateInitramfsConnectionsTask.run`: the backend calls
issued, and either the consolidated device names or the error raised
by the first device reaching the non-kickstart ifcfg branch. -/
def consolidate_run (env : NetEnv) (client : Option NMClient) :
    List NetEffect × Except AttributeError (List String) :=
  if !env.can_configure_network then ([], Except.ok [])
  else
    match client with
    | none => ([], Except.ok [])
    | some c => run_loop_exc (consolidate_device env) c.devices

/-- The inner loop of `SetRealOnbootValuesFromKickstartTask.run` for
one target device name: turning onboot on goes through the ifcfg file
(the device is counted only when the file update succeeds); turning it
off updates the live connection settings, falling back to the ifcfg
file when more than one connection matched (the device is counted
unless the attempted fallback fails; with zero matched connections the
loop still counts the device). -/
def onboot_update_step (env : NetEnv) (nd : NetworkData) (devname : String) :
    List String × List NetEffect :=
  if nd.onboot then
    let uuid := (env.find_ifcfg_uuid devname).getD ""
    if env.update_onboot_result uuid nd.onboot then
      ([devname], [NetEffect.updateOnbootIfcfg uuid nd.onboot])
    else ([], [NetEffect.updateOnbootIfcfg uuid nd.onboot])
  else
    let n := env.update_iface_settings_count devname nd.onboot
    if n == 1 then ([devname], [NetEffect.updateIfaceSettings devname nd.onboot])
    else if n > 1 then
      let uuid := (env.find_ifcfg_uuid devname).getD ""
      if env.update_onboot_result uuid nd.onboot then
        ([devname],
          [NetEffect.updateIfaceSettings devname nd.onboot,
            NetEffect.updateOnbootIfcfg uuid nd.onboot])
      else
        ([],
          [NetEffect.updateIfaceSettings devname nd.onboot,
            NetEffect.updateOnbootIfcfg uuid nd.onboot])
    else ([devname], [NetEffect.updateIfaceSettings devname nd.onboot])

/-- The body of the `SetRealOnbootValuesFromKickstartTask.run` loop
for one directive: resolve the device name (an unresolved directive is
only logged and processed with the empty name); a directive combining
a vlan id with bond or team slaves targets two devices - the resolved
vlan device and the master named by the directive - otherwise just the
resolved device; afterwards, for a directive with any slaves, the
slaves of the master are updated in the same pass (identifying the
master by the uuid of its single available connection when unique). -/
def set_onboot_item (env : NetEnv) (client : NMClient) (nd : NetworkData) :
    List String × List NetEffect :=
  let device_name := env.resolve_device_name nd
  let vlan_with_slaves :=
    nd.vlanid != "" && (nd.bondslaves != "" || !nd.teamslaves.isEmpty)
  let master := if vlan_with_slaves then nd.device else device_name
  let devices_to_update :=
    if vlan_with_slaves then [device_name, nd.device] else [device_name]
  let upd := run_loop (onboot_update_step env nd) devices_to_update
  if nd.bondslaves != "" || !nd.teamslaves.isEmpty || nd.bridgeslaves != "" then
    let uuid :=
      match client.devices.find? (fun dv => dv.iface == master) with
      | some dv =>
        match dv.available_connections with
        | [c] => some c.uuid
        | _ => none
      | none => none
    (upd.1 ++ env.update_slaves_result master nd.onboot uuid,
      upd.2 ++ [NetEffect.updateSlavesOnboot master nd.onboot])
  else upd

/-- `SetRealOnbootValuesFromKickstartTask.run`. -/
def set_onboot_run (env : NetEnv) (client : Option NMClient)
    (network_data : List NetworkData) : List String × List NetEffect :=
  if !env.can_configure_network then ([], [])
  else
    match client with
    | none => ([], [])
    | some c =>
      if network_data.isEmpty then ([], [])
      else run_loop (set_onboot_item env c) network_data

/-- `_select_persistent_connection_for_device`: the active connection
when it is bound to the interface name and available; otherwise the
first available connection bound to the interface name. -/
def select_persistent_connection_for_device (d : NMDevice)
    (cons : List NMConnection) : Option NMConnection :=
  let iface := d.iface
  match d.active_connection with
  | some con =>
    if con.interface_name == some iface && cons.contains con then some con
    else cons.find? fun c => c.interface_name == some iface
  | none => cons.find? fun c => c.interface_name == some iface

/-- The body of the `DumpMissingIfcfgFilesTask.run` loop for one
device: unsupported device types and devices that already have an
ifcfg file are skipped; with no available connection a default one is
added; with exactly one the device is skipped when it is a slave and
its connection is promoted (rebound to the interface and committed)
otherwise; with several connections the selected one is promoted for
a non-slave device (skipping when none is selectable), while a slave
device issues no call at all - yet its name still falls through to
the result list. -/
def dump_missing_device (env : NetEnv) (d : NMDevice) :
    List String × List NetEffect :=
  if !env.supported_wired_types.contains d.device_type then ([], [])
  else
    let iface := d.iface
    if (env.ifcfg_file iface).isSome then ([], [])
    else
      let cons := d.available_connections
      let device_is_slave := cons.any fun c => c.master.isSome
      match cons with
      | [] => ([iface], [NetEffect.addConnection iface false])
      | [c] =>
        if device_is_slave then ([], [])
        else ([iface], [NetEffect.updateConnection c.uuid iface, NetEffect.commitChanges c.uuid])
      | _ :: _ :: _ =>
        if !device_is_slave then
          match select_persistent_connection_for_device d cons with
          | none => ([], [])
          | some c =>
            ([iface], [NetEffect.updateConnection c.uuid iface, NetEffect.commitChanges c.uuid])
        else ([iface], [])

/-- `DumpMissingIfcfgFilesTask.run`. -/
def dump_missing_run (env : NetEnv) (client : Option NMClient) :
    List String × List NetEffect :=
  if !env.can_configure_network then ([], [])
  else
    match client with
    | none => ([], [])
    | some c => run_loop (dump_missing_device env) c.devices

/-- C2: with network configuration administratively disabled or
without a NetworkManager client, each of the four initialization
tasks returns the empty device list and issues no backend call. -/
theorem network_tasks_guard (env : NetEnv) (client : Option NMClient)
    (network_data : List NetworkData)
    (h : env.can_configure_network = false ∨ client = none) :
    apply_kickstart_run env client network_data = ([], []) ∧
    consolidate_run env client = ([], Except.ok []) ∧
    set_onboot_run env client network_data = ([], []) ∧
    dump_missing_run env client = ([], []) := by
  rcases h with h | h
  · simp [apply_kickstart_run, consolidate_run, set_onboot_run, dump_missing_run, h]
  · subst h
    cases hc : env.can_configure_network <;>
      cases network_data <;>
        simp [apply_kickstart_run, consolidate_run, set_onboot_run,
          dump_missing_run, hc]

theorem network_tasks_guard_wit :
    apply_kickstart_run { can_configure_network := false } none [] = ([], []) ∧
    consolidate_run { can_configure_network := false } none = ([], Except.ok []) ∧
    set_onboot_run { can_configure_network := false } none [] = ([], []) ∧
    dump_missing_run { can_configure_network := false } none = ([], []) :=
  network_tasks_guard { can_configure_network := false } none [] (Or.inl rfl)

/-- Two non-slave connections, neither bound to the interface name
"ens3", for the consolidation counterexample. -/
def c6_cex_cons : List NMConnection :=
  [ { uuid := "u1", interface_name := some "other" }
  , { uuid := "u2", interface_name := none } ]

def c6_cex_client : NMClient :=
  { devices := [{ iface := "ens3", available_connections := c6_cex_cons }] }

/-- C6 counterexample: a device with two available connections,
neither of which is a slave, no ifcfg file, and neither connection
bound to the device's interface name, is skipped outright - the task
returns it absent and issues no call, although the claim's third
preference ("any connection not already disk-backed") would select
one and consolidate the device. -/
theorem consolidate_fallback_cex :
    c6_cex_cons.length = 2 ∧
    (c6_cex_cons.all fun c => c.master == none) = true ∧
    consolidate_run {} (some c6_cex_client) =
      (([] : List NetEffect), Except.ok ([] : List String)) := by
  decide

/-- C6 amended: for a device with at least two available connections
none of which is a slave, a kickstart-born ifcfg file causes the
device to be skipped; an existing non-kickstart ifcfg file makes the
task raise AttributeError (`con_for_iface.get_uuid()` on the uuid
string at initialization.py line 215), issuing no call for the device
and aborting the whole run without a result; without an ifcfg file, a
connection bound to the interface name is selected, made the only
active one, and the device's name is returned whenever the run
completes, while with no interface-name match the device is skipped.
Devices with fewer than two connections or with any slave connection
contribute nothing. -/
theorem consolidate_selection (env : NetEnv) (client : NMClient) (d : NMDevice)
    (hmem : d ∈ client.devices) (hcan : env.can_configure_network = true) :
    (d.available_connections.length < 2 →
      consolidate_device env d = ([], Except.ok [])) ∧
    ((∃ c ∈ d.available_connections, c.master.isSome = true) →
      consolidate_device env d = ([], Except.ok [])) ∧
    (2 ≤ d.available_connections.length →
      (∀ c ∈ d.available_connections, c.master = none) →
      (∀ f : IfcfgFile, env.ifcfg_file d.iface = some f →
        f.is_from_kickstart = true →
        consolidate_device env d = ([], Except.ok [])) ∧
      (∀ f : IfcfgFile, env.ifcfg_file d.iface = some f →
        f.is_from_kickstart = false →
        consolidate_device env d = ([], Except.error {}) ∧
        ∃ e, (consolidate_run env (some client)).2 = Except.error e) ∧
      (env.ifcfg_file d.iface = none →
        (∀ c : NMConnection,
          select_persistent_connection_for_iface d.iface d.available_connections =
            some c →
          consolidate_device env d =
            ([NetEffect.ensureActive c.uuid d.iface true], Except.ok [d.iface]) ∧
          (∀ ns : List String,
            (consolidate_run env (some client)).2 = Except.ok ns →
            d.iface ∈ ns)) ∧
        (select_persistent_connection_for_iface d.iface d.available_connections =
            none →
          consolidate_device env d = ([], Except.ok [])))) := by
  have hrun : consolidate_run env (some client) =
      run_loop_exc (consolidate_device env) client.devices := by
    simp [consolidate_run, hcan]
  refine ⟨?_, ?_, ?_⟩
  · intro hlen
    simp [consolidate_device, hlen]
  · intro hex
    have hany : (d.available_connections.any fun c => c.master.isSome) = true := by
      rcases hex with ⟨c, hc, hm⟩
      exact List.any_eq_true.2 ⟨c, hc, hm⟩
    by_cases hlen : d.available_connections.length < 2
    · simp [consolidate_device, hlen]
    · simp [consolidate_device, hlen, hany]
  · intro hlen hnone
    have hany : (d.available_connections.any fun c => c.master.isSome) = false := by
      simp only [List.any_eq_false]
      intro c hc
      simp [hnone c hc]
    have hlt : ¬ d.available_connections.length < 2 := by omega
    refine ⟨?_, ?_, ?_⟩
    · intro f hf hks
      simp [consolidate_device, hlt, hany, hf, hks]
    · intro f hf hks
      have hdev : consolidate_device env d = ([], Except.error {}) := by
        simp [consolidate_device, hlt, hany, hf, hks]
      refine ⟨hdev, ?_⟩
      rw [hrun]
      exact run_loop_exc_error hmem (by rw [hdev])
    · intro hf
      refine ⟨?_, ?_⟩
      · intro c hc
        have hdev : consolidate_device env d =
            ([NetEffect.ensureActive c.uuid d.iface true], Except.ok [d.iface]) := by
          simp [consolidate_device, hlt, hany, hf, hc]
        refine ⟨hdev, ?_⟩
        intro ns hns
        rw [hrun] at hns
        exact run_loop_exc_mem hmem (by rw [hdev])
          (List.mem_singleton.2 rfl) ns hns
      · intro hc
        simp [consolidate_device, hlt, hany, hf, hc]

/-- Concrete instantiation data for the consolidation theorem: no
ifcfg file, first connection bound to the device's interface name. -/
def c6_env : NetEnv := {}

def c6_dev : NMDevice :=
  { iface := "ens3"
    available_connections :=
      [{ uuid := "u1", interface_name := some "ens3" },
       { uuid := "u2", interface_name := none }] }

def c6_client : NMClient := { devices := [c6_dev] }

theorem consolidate_selection_wit :
    consolidate_device c6_env c6_dev =
      ([NetEffect.ensureActive "u1" "ens3" true], Except.ok ["ens3"]) ∧
    "ens3" ∈ (["ens3"] : List String) :=
  have h := (((consolidate_selection c6_env c6_client c6_dev (by decide) rfl).2.2
    (by decide) (by decide)).2.2 rfl).1
    { uuid := "u1", interface_name := some "ens3" } (by decide)
  ⟨h.1, h.2 ["ens3"] (by decide)⟩

/-- A supported wired device without an ifcfg file whose two available
connections are both subordinate settings of a bonding master. -/
def c7_client : NMClient :=
  { devices :=
      [ { iface := "ens10"
          device_type := 1
          available_connections :=
            [ { uuid := "u1", master := some "bond0" }
            , { uuid := "u2", master := some "bond0" } ] } ] }

/-- C7: evaluation of `DumpMissingIfcfgFilesTask.run` at the failing
input - one supported wired device without an ifcfg file whose two
available connections are both slave settings of a bonding master.
The run returns the device name although it issues no backend call,
so no ifcfg file was created or promoted for it, contradicting the
documented result ("names of devices for which ifcfg file was
created") and the claim. -/
theorem dump_missing_slave_append :
    dump_missing_run {} (some c7_client) = (["ens10"], []) := by
  decide

/-- C8: a directive carrying a vlan id together with bond or team
slaves targets two devices - the resolved vlan device and the master
named by the directive - and when the onboot update succeeds for both,
both names appear in the returned device list. -/
theorem set_onboot_vlan_bond (env : NetEnv) (client : NMClient)
    (network_data : List NetworkData) (nd : NetworkData)
    (hmem : nd ∈ network_data)
    (hcan : env.can_configure_network = true)
    (hvlan : nd.vlanid ≠ "")
    (hslaves : nd.bondslaves ≠ "" ∨ nd.teamslaves ≠ [])
    (h1 : (onboot_update_step env nd (env.resolve_device_name nd)).1 =
      [env.resolve_device_name nd])
    (h2 : (onboot_update_step env nd nd.device).1 = [nd.device]) :
    env.resolve_device_name nd ∈ (set_onboot_run env (some client) network_data).1 ∧
    nd.device ∈ (set_onboot_run env (some client) network_data).1 := by
  have hne : network_data ≠ [] := List.ne_nil_of_mem hmem
  have hrun : set_onboot_run env (some client) network_data =
      run_loop (set_onboot_item env client) network_data := by
    simp [set_onboot_run, hcan, List.isEmpty_iff, hne]
  have hv : (nd.vlanid != "" && (nd.bondslaves != "" || !nd.teamslaves.isEmpty)) = true := by
    rcases hslaves with h | h <;>
      simp [bne_iff_ne, hvlan, h, List.isEmpty_iff]
  have hs : (nd.bondslaves != "" || !nd.teamslaves.isEmpty || nd.bridgeslaves != "") = true := by
    rcases hslaves with h | h <;>
      simp [bne_iff_ne, h, List.isEmpty_iff]
  have hitem : env.resolve_device_name nd ∈ (set_onboot_item env client nd).1 ∧
      nd.device ∈ (set_onboot_item env client nd).1 := by
    constructor <;>
      simp [set_onboot_item, hv, hs, run_loop, h1, h2]
  rw [hrun]
  exact ⟨run_loop_mem hmem hitem.1, run_loop_mem hmem hitem.2⟩

/-- Concrete instantiation data for the onboot theorem: the spec's
scenario, a directive with onboot, bond slaves and a vlan id on
device bond0. -/
def c8_env : NetEnv := { resolve_device_name := fun _ => "bond0.222" }

def c8_nd : NetworkData :=
  { device := "bond0", onboot := true, vlanid := "222", bondslaves := "ens9,ens10" }

theorem set_onboot_vlan_bond_wit :
    "bond0.222" ∈ (set_onboot_run c8_env (some {}) [c8_nd]).1 ∧
    "bond0" ∈ (set_onboot_run c8_env (some {}) [c8_nd]).1 :=
  set_onboot_vlan_bond c8_env {} [c8_nd] c8_nd (by decide) rfl
    (by decide) (Or.inl (by decide)) (by decide) (by decide)

end Network

end Anaconda
